import Mathlib

/-!
Verification of the Notehub.org API wrapper (notehub.py) against its
specification. The Python module is shallowly embedded below: the MD5
primitive used by hashlib is implemented over Nat bytes, the wrapper class
`Notehub` becomes a structure of its three credential fields, each method
becomes a pure function, and the shared response handling `_request`
becomes a function from a received HTTP response to an `Except` outcome.
-/

/-! ## MD5 (hashlib.md5(...).hexdigest) over byte lists -/

/-- Truncate to 32 bits. -/
def m32 (n : Nat) : Nat := n % 4294967296

/-- 32-bit left rotation. -/
def rotl32 (x c : Nat) : Nat :=
  m32 ((x <<< c) + (x >>> (32 - c)))

/-- Bitwise complement within 32 bits. -/
def not32 (x : Nat) : Nat := Nat.xor x 4294967295

/-- The 64 MD5 sine-derived round constants. -/
def md5K : List Nat :=
  [0xd76aa478, 0xe8c7b756, 0x242070db, 0xc1bdceee,
   0xf57c0faf, 0x4787c62a, 0xa8304613, 0xfd469501,
   0x698098d8, 0x8b44f7af, 0xffff5bb1, 0x895cd7be,
   0x6b901122, 0xfd987193, 0xa679438e, 0x49b40821,
   0xf61e2562, 0xc040b340, 0x265e5a51, 0xe9b6c7aa,
   0xd62f105d, 0x02441453, 0xd8a1e681, 0xe7d3fbc8,
   0x21e1cde6, 0xc33707d6, 0xf4d50d87, 0x455a14ed,
   0xa9e3e905, 0xfcefa3f8, 0x676f02d9, 0x8d2a4c8a,
   0xfffa3942, 0x8771f681, 0x6d9d6122, 0xfde5380c,
   0xa4beea44, 0x4bdecfa9, 0xf6bb4b60, 0xbebfbc70,
   0x289b7ec6, 0xeaa127fa, 0xd4ef3085, 0x04881d05,
   0xd9d4d039, 0xe6db99e5, 0x1fa27cf8, 0xc4ac5665,
   0xf4292244, 0x432aff97, 0xab9423a7, 0xfc93a039,
   0x655b59c3, 0x8f0ccc92, 0xffeff47d, 0x85845dd1,
   0x6fa87e4f, 0xfe2ce6e0, 0xa3014314, 0x4e0811a1,
   0xf7537e82, 0xbd3af235, 0x2ad7d2bb, 0xeb86d391]

/-- The 64 MD5 per-round left-rotation amounts. -/
def md5S : List Nat :=
  [7, 12, 17, 22, 7, 12, 17, 22, 7, 12, 17, 22, 7, 12, 17, 22,
   5, 9, 14, 20, 5, 9, 14, 20, 5, 9, 14, 20, 5, 9, 14, 20,
   4, 11, 16, 23, 4, 11, 16, 23, 4, 11, 16, 23, 4, 11, 16, 23,
   6, 10, 15, 21, 6, 10, 15, 21, 6, 10, 15, 21, 6, 10, 15, 21]

/-- One MD5 round on state (a, b, c, d) at round index i with message words ws. -/
def md5Round (ws : List Nat) (st : Nat × Nat × Nat × Nat) (i : Nat) :
    Nat × Nat × Nat × Nat :=
  let (a, b, c, d) := st
  let fg : Nat × Nat :=
    if i < 16 then (Nat.lor (Nat.land b c) (Nat.land (not32 b) d), i)
    else if i < 32 then (Nat.lor (Nat.land d b) (Nat.land (not32 d) c), (5 * i + 1) % 16)
    else if i < 48 then (Nat.xor b (Nat.xor c d), (3 * i + 5) % 16)
    else (Nat.xor c (Nat.lor b (not32 d)), (7 * i) % 16)
  let f := m32 (fg.1 + a + md5K.getD i 0 + ws.getD fg.2 0)
  (d, m32 (b + rotl32 f (md5S.getD i 0)), b, c)

/-- Group bytes into little-endian 32-bit words; the fuel bounds recursion. -/
def toWords32 : Nat → List Nat → List Nat
  | 0, _ => []
  | _, [] => []
  | fuel + 1, b0 :: rest =>
    match rest with
    | b1 :: b2 :: b3 :: rest2 =>
      (b0 + b1 * 256 + b2 * 65536 + b3 * 16777216) :: toWords32 fuel rest2
    | _ => []

/-- Process one 64-byte chunk, updating the four-word state. -/
def md5Chunk (st : Nat × Nat × Nat × Nat) (chunk : List Nat) :
    Nat × Nat × Nat × Nat :=
  let ws := toWords32 chunk.length chunk
  let (a0, b0, c0, d0) := st
  let (a, b, c, d) := (List.range 64).foldl (md5Round ws) (a0, b0, c0, d0)
  (m32 (a0 + a), m32 (b0 + b), m32 (c0 + c), m32 (d0 + d))

/-- Split a byte list into 64-byte chunks; the fuel bounds recursion. -/
def chunks64 : Nat → List Nat → List (List Nat)
  | 0, _ => []
  | _, [] => []
  | fuel + 1, bs => bs.take 64 :: chunks64 fuel (bs.drop 64)

/-- Little-endian bytes of a number, at a fixed width in bytes. -/
def leBytes : Nat → Nat → List Nat
  | 0, _ => []
  | w + 1, n => n % 256 :: leBytes w (n / 256)

/-- MD5 padding: a 0x80 byte, zeros to 56 mod 64, then the 64-bit bit length. -/
def md5Pad (msg : List Nat) : List Nat :=
  let len := msg.length
  let zeros := (64 + 56 - (len + 1) % 64) % 64
  msg ++ [128] ++ List.replicate zeros 0 ++
    leBytes 8 ((len * 8) % 18446744073709551616)

/-- MD5 digest of a byte list, as the 16 digest bytes. -/
def md5Bytes (msg : List Nat) : List Nat :=
  let padded := md5Pad msg
  let (a, b, c, d) :=
    (chunks64 padded.length padded).foldl md5Chunk
      (0x67452301, 0xefcdab89, 0x98badcfe, 0x10325476)
  leBytes 4 a ++ leBytes 4 b ++ leBytes 4 c ++ leBytes 4 d

/-- UTF-8 encoding of a single character, as bytes (str.encode in Python). -/
def utf8Bytes (c : Char) : List Nat :=
  let n := c.toNat
  if n < 128 then [n]
  else if n < 2048 then
    [192 + n / 64, 128 + n % 64]
  else if n < 65536 then
    [224 + n / 4096, 128 + n / 64 % 64, 128 + n % 64]
  else
    [240 + n / 262144, 128 + n / 4096 % 64, 128 + n / 64 % 64, 128 + n % 64]

/-- UTF-8 byte sequence of a string. -/
def strBytes (s : String) : List Nat :=
  (s.data.map utf8Bytes).flatten

/-- Lowercase hex rendering of a list of bytes, two digits per byte. -/
def bytesToHex (bs : List Nat) : String :=
  String.mk ((bs.map fun b => [Nat.digitChar (b / 16), Nat.digitChar (b % 16)]).flatten)

/-- Lowercase hex MD5 digest of a string: md5(s.encode(utf-8)).hexdigest(). -/
def md5_hex (s : String) : String :=
  bytesToHex (md5Bytes (strBytes s))

/-! ## JSON values and Python dict operations -/

/-- JSON values as decoded by requests Response.json(): strings, booleans,
integers, null, and objects with insertion-ordered fields. -/
inductive Json where
  | str (s : String)
  | bool (b : Bool)
  | num (n : Int)
  | null
  | obj (fields : List (String × Json))

/-- A decoded JSON object, as a Python dict: insertion-ordered key/value pairs. -/
abbrev Dict := List (String × Json)

/-- Python d[k] on a JSON object: the value at the first matching key. -/
def lookupKey : Dict → String → Option Json
  | [], _ => none
  | (k, v) :: rest, key => if k = key then some v else lookupKey rest key

/-- Python del d[k]: removes the binding of the key (dicts hold at most one). -/
def eraseKey : Dict → String → Dict
  | [], _ => []
  | (k, v) :: rest, key =>
    if k = key then eraseKey rest key else (k, v) :: eraseKey rest key

/-- Lookup in a string-valued form body (the params and data dicts). -/
def lookupField : List (String × String) → String → Option String
  | [], _ => none
  | (k, v) :: rest, key => if k = key then some v else lookupField rest key

/-- Python x != True negated: True and the integer 1 compare equal to True;
every other JSON value does not. -/
def pyEqTrue : Json → Bool
  | .bool b => b
  | .num n => n == 1
  | _ => false

/-- str(KeyError(k)) in CPython: the repr of the key, in single quotes. -/
def keyErrorMsg (k : String) : String := "\x27" ++ k ++ "\x27"

/-! ## The wrapper class and its methods -/

/-- Outcome of a Python call: either a normal value or an escaping exception.
notehubError is the NotehubError the wrapper raises; typeError models a
built-in TypeError that the except clause of the request helper does not
catch (subscripting a non-dict, concatenating a non-string message). -/
inductive PyError where
  | notehubError (msg : String)
  | typeError
deriving DecidableEq

/-- An HTTP response as seen through the requests library: a numeric status
code and the result of Response.json(), which is a ValueError message when
the body does not decode. -/
structure Response where
  status_code : Nat
  body : Except String Json

/-- HTTP methods dispatched by the request helper. -/
inductive HttpMethod where
  | GET
  | POST
  | PUT
deriving DecidableEq

/-- The Notehub wrapper object: the three fields assigned by the constructor. -/
structure Notehub where
  pid : String
  psk : String
  version : String
deriving DecidableEq

/-- The constructor with the default API version, as Notehub(pid, psk). -/
def Notehub.make (pid psk : String) : Notehub := ⟨pid, psk, "1.1"⟩

/-- The fixed service endpoint BASE_URL. -/
def Notehub.BASE_URL : String := "http://notehub.org/api/note"

/-- An HTTP request as the wrapper issues it: a verb against BASE_URL with
either query params (GET) or a form-encoded body (POST and PUT). -/
structure HttpRequest where
  method : HttpMethod
  url : String
  params : List (String × String)
  data : List (String × String)

/-- The response-checking half of the private request helper, applied to a
received response: reject a non-200 status naming the code, propagate a JSON
decode failure, check the status object for success, and on success return
the body with the status key deleted. The method, params and data arguments
determine only which HTTP call produced the response. -/
def Notehub.request (_nh : Notehub) (_method : HttpMethod)
    (_params : List (String × String)) (_data : List (String × String))
    (resp : Response) : Except PyError Dict :=
  if resp.status_code ≠ 200 then
    .error (.notehubError ("Server returned non-200 response code: "
      ++ toString resp.status_code))
  else
    match resp.body with
    | .error e => .error (.notehubError e)
    | .ok (Json.obj fields) =>
      match lookupKey fields "status" with
      | none => .error (.notehubError (keyErrorMsg "status"))
      | some (Json.obj stFields) =>
        match lookupKey stFields "success" with
        | none => .error (.notehubError (keyErrorMsg "success"))
        | some s =>
          if pyEqTrue s then
            .ok (eraseKey fields "status")
          else
            match lookupKey stFields "message" with
            | none => .error (.notehubError (keyErrorMsg "message"))
            | some (Json.str m) =>
              .error (.notehubError ("Non successful status: " ++ m))
            | some _ => .error .typeError
      | some _ => .error .typeError
    | .ok _ => .error .typeError

/-- The private signature helper: the MD5 hex digest of pid, psk and the
given text concatenated in that order. -/
def Notehub.get_signature (nh : Notehub) (text : String) : String :=
  md5_hex (nh.pid ++ nh.psk ++ text)

/-- The query parameters of the get_note GET call. -/
def Notehub.get_note_params (nh : Notehub) (note_id : String) :
    List (String × String) :=
  [("noteID", note_id), ("version", nh.version)]

/-- The form body of the create_note POST call: note, pid, signature and
version always, plus the MD5 hex of the password when the password string
is truthy (non-empty). -/
def Notehub.create_note_data (nh : Notehub) (note_text password : String) :
    List (String × String) :=
  let d0 := [("note", note_text),
             ("pid", nh.pid),
             ("signature", nh.get_signature note_text),
             ("version", nh.version)]
  if password = "" then d0 else d0 ++ [("password", md5_hex password)]

/-- The form body of the update_note PUT call: the password is hashed, the
signature is the signature helper applied to noteId, new text and the
encoded password concatenated. -/
def Notehub.update_note_data (nh : Notehub)
    (note_id new_note_text password : String) : List (String × String) :=
  let encoded_password := md5_hex password
  [("noteId", note_id),
   ("note", new_note_text),
   ("pid", nh.pid),
   ("signature", nh.get_signature (note_id ++ new_note_text ++ encoded_password)),
   ("password", encoded_password),
   ("version", nh.version)]

/-- The full HTTP request issued by get_note. -/
def Notehub.get_note_request (nh : Notehub) (note_id : String) : HttpRequest :=
  ⟨.GET, Notehub.BASE_URL, nh.get_note_params note_id, []⟩

/-- The full HTTP request issued by create_note. -/
def Notehub.create_note_request (nh : Notehub) (note_text password : String) :
    HttpRequest :=
  ⟨.POST, Notehub.BASE_URL, [], nh.create_note_data note_text password⟩

/-- The full HTTP request issued by update_note. -/
def Notehub.update_note_request (nh : Notehub)
    (note_id new_note_text password : String) : HttpRequest :=
  ⟨.PUT, Notehub.BASE_URL, [], nh.update_note_data note_id new_note_text password⟩

/-- get_note: issue the GET request and run the shared response handling on
the received response. -/
def Notehub.get_note (nh : Notehub) (note_id : String) (resp : Response) :
    Except PyError Dict :=
  nh.request .GET (nh.get_note_params note_id) [] resp

/-- create_note: issue the POST request and run the shared response handling
on the received response. -/
def Notehub.create_note (nh : Notehub) (note_text password : String)
    (resp : Response) : Except PyError Dict :=
  nh.request .POST [] (nh.create_note_data note_text password) resp

/-- update_note: issue the PUT request and run the shared response handling
on the received response. -/
def Notehub.update_note (nh : Notehub) (note_id new_note_text password : String)
    (resp : Response) : Except PyError Dict :=
  nh.request .PUT [] (nh.update_note_data note_id new_note_text password) resp

/-- Modelled from the spec: the display-option support of create_note (the
theme, text_font and header_font arguments), which this repository's tests
and examples call but which is missing from the copy of notehub.py under
src/. Per the spec, each supplied option is included as an additional
display-option field of the POST body (theme, text-font, header-font)
alongside note, pid, signature and version. -/
def Notehub.create_note_data_opts (nh : Notehub)
    (note_text password theme text_font header_font : String) :
    List (String × String) :=
  nh.create_note_data note_text password
    ++ (if theme = "" then [] else [("theme", theme)])
    ++ (if text_font = "" then [] else [("text-font", text_font)])
    ++ (if header_font = "" then [] else [("header-font", header_font)])

/-- State-passing translation of get_note: the method body assigns no field
of self, so the returned receiver is the incoming one. -/
def Notehub.get_note_st (nh : Notehub) (note_id : String) (resp : Response) :
    Except PyError Dict × Notehub :=
  (nh.get_note note_id resp, nh)

/-- State-passing translation of create_note: no field of self is assigned. -/
def Notehub.create_note_st (nh : Notehub) (note_text password : String)
    (resp : Response) : Except PyError Dict × Notehub :=
  (nh.create_note note_text password resp, nh)

/-- State-passing translation of update_note: no field of self is assigned. -/
def Notehub.update_note_st (nh : Notehub)
    (note_id new_note_text password : String) (resp : Response) :
    Except PyError Dict × Notehub :=
  (nh.update_note note_id new_note_text password resp, nh)

/-- State-passing translation of the private request helper: no field of
self is assigned. -/
def Notehub.request_st (nh : Notehub) (method : HttpMethod)
    (params : List (String × String)) (data : List (String × String))
    (resp : Response) : Except PyError Dict × Notehub :=
  (nh.request method params data resp, nh)

/-- State-passing translation of the private signature helper: no field of
self is assigned. -/
def Notehub.get_signature_st (nh : Notehub) (text : String) :
    String × Notehub :=
  (nh.get_signature text, nh)

/-! ## Helper lemmas -/

/-- Deleting a key from a dict makes the key absent. -/
theorem lookupKey_eraseKey_self (l : Dict) (k : String) :
    lookupKey (eraseKey l k) k = none := by
  induction l with
  | nil => rfl
  | cons p rest ih =>
    obtain ⟨k1, v1⟩ := p
    by_cases h : k1 = k
    · simp [eraseKey, h, ih]
    · simp [eraseKey, lookupKey, h, ih]

/-- Deleting one key from a dict leaves every other key bound as before. -/
theorem lookupKey_eraseKey_ne (l : Dict) (k k2 : String) (h : k2 ≠ k) :
    lookupKey (eraseKey l k) k2 = lookupKey l k2 := by
  induction l with
  | nil => rfl
  | cons p rest ih =>
    obtain ⟨k1, v1⟩ := p
    by_cases h1 : k1 = k
    · subst h1
      have h2 : ¬ (k1 = k2) := fun e => h (e ▸ rfl)
      simp [eraseKey, lookupKey, h2, ih]
    · simp [eraseKey, lookupKey, h1, ih]

/-! ## Claim theorems -/

/-- Claim C9: signature generation is deterministic and stateless — for any
two computations with identical publisher ID, secret key, and input text,
the produced signatures are identical, whatever the remaining state of the
two client instances. -/
theorem get_signature_deterministic (nh1 nh2 : Notehub) (t1 t2 : String)
    (hpid : nh1.pid = nh2.pid) (hpsk : nh1.psk = nh2.psk) (ht : t1 = t2) :
    nh1.get_signature t1 = nh2.get_signature t2 := by
  simp [Notehub.get_signature, hpid, hpsk, ht]

/-- Claim C9 witness: two clients sharing pid and psk but differing in the
stored API version produce the same signature for the same text. -/
theorem get_signature_deterministic_witness :
    (Notehub.mk "p" "k" "1.1").get_signature "n"
      = (Notehub.mk "p" "k" "2.0").get_signature "n" :=
  get_signature_deterministic (Notehub.mk "p" "k" "1.1") (Notehub.mk "p" "k" "2.0")
    "n" "n" rfl rfl rfl

/-- Claim C10: every operation, and the private helpers they share, leave
the client's credential fields (pid, psk, version) unchanged for every
response, i.e. whether the call returns a mapping or raises: the
state-passing translations return the receiver exactly as it came in,
because no method body assigns any field of self. -/
theorem operations_preserve_credentials (nh : Notehub)
    (note_id note_text new_note_text password text : String)
    (method : HttpMethod) (params data : List (String × String))
    (resp : Response) :
    (nh.get_note_st note_id resp).2 = nh ∧
    (nh.create_note_st note_text password resp).2 = nh ∧
    (nh.update_note_st note_id new_note_text password resp).2 = nh ∧
    (nh.request_st method params data resp).2 = nh ∧
    (nh.get_signature_st text).2 = nh :=
  ⟨rfl, rfl, rfl, rfl, rfl⟩

set_option maxRecDepth 100000 in
/-- Claim C1 counterexample: the claimed formula
hex(MD5(noteId + newText + hex(MD5(password)))) — a concatenation of exactly
those three fields — does not match the signature update_note places in the
PUT body: at pid a, psk b, noteId c, newText d, password e the body's
signature differs from the claimed value, because the signature helper
prepends pid and psk to the hashed text. -/
theorem update_signature_spec_formula_fails :
    lookupField ((Notehub.mk "a" "b" "1.1").update_note_request "c" "d" "e").data
        "signature"
      ≠ some (md5_hex ("c" ++ "d" ++ md5_hex "e")) := by
  decide

/-- Claim C1 (amended): for every note ID, new text, and password, the
signature that update_note places in the PUT body equals
hex(MD5(pid + psk + noteId + newText + hex(MD5(password)))): the shared
signature helper prepends the publisher ID and secret key, so the hashed
concatenation contains exactly those five fields in that order. -/
theorem update_note_signature_eq (nh : Notehub)
    (note_id new_note_text password : String) :
    lookupField (nh.update_note_request note_id new_note_text password).data
        "signature"
      = some (md5_hex (nh.pid ++ nh.psk
          ++ (note_id ++ new_note_text ++ md5_hex password))) := by
  rfl

/-- Claim C2: for every note text (and any password), the POST body that
create_note sends contains the note text under note, the publisher ID under
pid, the API version under version, and a signature equal to
hex(MD5(pid + psk + noteText)). -/
theorem create_note_body_fields (nh : Notehub) (note_text password : String) :
    ("note", note_text) ∈ (nh.create_note_request note_text password).data ∧
    ("pid", nh.pid) ∈ (nh.create_note_request note_text password).data ∧
    ("version", nh.version) ∈ (nh.create_note_request note_text password).data ∧
    ("signature", md5_hex (nh.pid ++ nh.psk ++ note_text))
      ∈ (nh.create_note_request note_text password).data := by
  by_cases hp : password = "" <;>
    refine ⟨?_, ?_, ?_, ?_⟩ <;>
      simp [Notehub.create_note_request, Notehub.create_note_data,
        Notehub.get_signature, hp]

/-- Claim C8 counterexample: update_note does not reject an empty password —
called with password set to the empty string it still builds the full
authenticated PUT body, carrying the MD5 hex digest of the empty string in
the password field, and on a success response it returns normally. -/
theorem update_note_empty_password_not_rejected :
    ("password", md5_hex "")
        ∈ (Notehub.mk "p" "k" "1.1").update_note_data "i" "t" "" ∧
    (Notehub.mk "p" "k" "1.1").update_note "i" "t" ""
        ⟨200, .ok (Json.obj
          [("status", Json.obj [("success", Json.bool true),
                                ("message", Json.str "")]),
           ("longURL", Json.str "http://service/u")])⟩
      = .ok [("longURL", Json.str "http://service/u")] :=
  ⟨by simp [Notehub.update_note_data], rfl⟩

/-- Claim C8 (amended): create_note with a falsy (empty) password omits the
password field from the request body entirely, whereas update_note merely
makes the password argument mandatory: it performs no emptiness check, and
for every password — the empty string included — it sends the MD5 hex
digest of that password in the password field of the PUT body. -/
theorem password_handling_asymmetry (nh : Notehub)
    (note_text note_id new_note_text password : String) :
    lookupField (nh.create_note_data note_text "") "password" = none ∧
    ("password", md5_hex password)
      ∈ nh.update_note_data note_id new_note_text password := by
  exact ⟨rfl, by simp [Notehub.update_note_data]⟩

/-- Claim C3 counterexample: the plaintext password can appear in a field of
the transmitted request — create_note called with note text equal to the
password puts that very string in the note field, so "the plaintext password
never appears in any field" fails as stated at note text s, password s. -/
theorem create_note_password_coincidence :
    ¬ (∀ kv ∈ (Notehub.mk "p" "k" "1.1").create_note_data "s" "s",
        kv.2 ≠ "s") := by
  intro h
  exact h ("note", "s") (by decide) rfl

/-- Claim C3 (amended): for every call to create_note with a password set,
the request body's password field equals the MD5 hex digest of the password;
the password reaches the body only through that digest, so whenever the
password is not itself one of the other transmitted values (the note text,
the publisher ID, the version, the signature, or its own digest) no field of
the request equals the plaintext password. -/
theorem create_note_password_hashed (nh : Notehub) (note_text password : String)
    (h0 : password ≠ "") (h1 : password ≠ note_text) (h2 : password ≠ nh.pid)
    (h3 : password ≠ nh.version)
    (h4 : password ≠ md5_hex (nh.pid ++ nh.psk ++ note_text))
    (h5 : password ≠ md5_hex password) :
    lookupField (nh.create_note_data note_text password) "password"
        = some (md5_hex password) ∧
      ∀ kv ∈ nh.create_note_data note_text password, kv.2 ≠ password := by
  constructor
  · simp [Notehub.create_note_data, lookupField, h0]
  · intro kv hkv
    simp [Notehub.create_note_data, Notehub.get_signature, h0] at hkv
    rcases hkv with rfl | rfl | rfl | rfl | rfl
    · exact Ne.symm h1
    · exact Ne.symm h2
    · exact Ne.symm h4
    · exact Ne.symm h3
    · exact Ne.symm h5

set_option maxRecDepth 1000000 in
/-- Claim C3 witness: a concrete create_note call with pid p, psk k, note
text n and password s carries the digest of s in its password field, with
every exclusion hypothesis checked by computation. -/
theorem create_note_password_hashed_witness :
    lookupField ((Notehub.mk "p" "k" "1.1").create_note_data "n" "s") "password"
      = some (md5_hex "s") :=
  (create_note_password_hashed (Notehub.mk "p" "k" "1.1") "n" "s" (by decide)
    (by decide) (by decide) (by decide) (by decide) (by decide)).1

/-- Claim C4: for every operation (retrieve, create, update), a 200 response
whose decoded status object indicates success makes the operation return the
decoded body with the status key removed: the returned mapping never binds
status, and every other key keeps the value the body gave it. -/
theorem request_success_strips_status (nh : Notehub)
    (note_id note_text new_note_text password : String)
    (fields stFields : Dict) (s : Json)
    (h1 : lookupKey fields "status" = some (Json.obj stFields))
    (h2 : lookupKey stFields "success" = some s)
    (h3 : pyEqTrue s = true) :
    nh.get_note note_id ⟨200, .ok (Json.obj fields)⟩
        = .ok (eraseKey fields "status") ∧
    nh.create_note note_text password ⟨200, .ok (Json.obj fields)⟩
        = .ok (eraseKey fields "status") ∧
    nh.update_note note_id new_note_text password ⟨200, .ok (Json.obj fields)⟩
        = .ok (eraseKey fields "status") ∧
    lookupKey (eraseKey fields "status") "status" = none ∧
    ∀ k, k ≠ "status" →
      lookupKey (eraseKey fields "status") k = lookupKey fields k := by
  refine ⟨?_, ?_, ?_, lookupKey_eraseKey_self fields "status",
    fun k hk => lookupKey_eraseKey_ne fields "status" k hk⟩ <;>
    simp [Notehub.get_note, Notehub.create_note, Notehub.update_note,
      Notehub.request, h1, h2, h3]

/-- Claim C4 witness: the stubbed 200 create_note response of the spec, with
a successful status, a longURL and a shortURL, comes back as the same
mapping without its status key and with longURL untouched. -/
theorem request_success_strips_status_witness :
    (Notehub.mk "p" "k" "1.1").create_note "Test note 123." ""
        ⟨200, .ok (Json.obj
          [("status", Json.obj [("success", Json.bool true),
                                ("message", Json.str "")]),
           ("longURL", Json.str "http://service/2014/1/26/test"),
           ("shortURL", Json.str "http://service/vbbql")])⟩
      = .ok [("longURL", Json.str "http://service/2014/1/26/test"),
             ("shortURL", Json.str "http://service/vbbql")] :=
  ((request_success_strips_status (Notehub.mk "p" "k" "1.1") "x" "Test note 123."
      "y" ""
      [("status", Json.obj [("success", Json.bool true),
                            ("message", Json.str "")]),
       ("longURL", Json.str "http://service/2014/1/26/test"),
       ("shortURL", Json.str "http://service/vbbql")]
      [("success", Json.bool true), ("message", Json.str "")]
      (Json.bool true) rfl rfl rfl).2.1).trans rfl

/-- Claim C5: for every operation, a 200 response whose decoded status object
indicates failure makes the operation raise NotehubError instead of
returning a value, and the error message carries the service-supplied
failure message verbatim: it is the fixed prefix followed by exactly that
message, so it contains the message. -/
theorem request_failure_status_raises (nh : Notehub)
    (note_id note_text new_note_text password m : String)
    (fields stFields : Dict) (s : Json)
    (h1 : lookupKey fields "status" = some (Json.obj stFields))
    (h2 : lookupKey stFields "success" = some s)
    (h3 : pyEqTrue s = false)
    (h4 : lookupKey stFields "message" = some (Json.str m)) :
    nh.get_note note_id ⟨200, .ok (Json.obj fields)⟩
        = .error (.notehubError ("Non successful status: " ++ m)) ∧
    nh.create_note note_text password ⟨200, .ok (Json.obj fields)⟩
        = .error (.notehubError ("Non successful status: " ++ m)) ∧
    nh.update_note note_id new_note_text password ⟨200, .ok (Json.obj fields)⟩
        = .error (.notehubError ("Non successful status: " ++ m)) ∧
    ∃ pre, "Non successful status: " ++ m = pre ++ m := by
  refine ⟨?_, ?_, ?_, ⟨"Non successful status: ", rfl⟩⟩ <;>
    simp [Notehub.get_note, Notehub.create_note, Notehub.update_note,
      Notehub.request, h1, h2, h3, h4]

/-- Claim C5 witness: the stubbed 200 response whose status carries success
false and message Bad noteID. makes get_note of a bogus ID raise
NotehubError with a message containing Bad noteID. -/
theorem request_failure_status_raises_witness :
    (Notehub.mk "p" "k" "1.1").get_note "bogus"
        ⟨200, .ok (Json.obj
          [("status", Json.obj [("success", Json.bool false),
                                ("message", Json.str "Bad noteID.")])])⟩
      = .error (.notehubError ("Non successful status: " ++ "Bad noteID.")) :=
  (request_failure_status_raises (Notehub.mk "p" "k" "1.1") "bogus" "x" "y" "z"
    "Bad noteID."
    [("status", Json.obj [("success", Json.bool false),
                          ("message", Json.str "Bad noteID.")])]
    [("success", Json.bool false), ("message", Json.str "Bad noteID.")]
    (Json.bool false) rfl rfl rfl rfl).1

/-- Claim C6: for every operation, a response with a status code other than
200 makes the operation raise NotehubError whose message contains the
numeric status code after the fixed prefix; the result is the same for
every possible body, so the body is never consulted. -/
theorem request_non200_raises (nh : Notehub)
    (note_id note_text new_note_text password : String)
    (code : Nat) (body : Except String Json) (h : code ≠ 200) :
    nh.get_note note_id ⟨code, body⟩
        = .error (.notehubError
            ("Server returned non-200 response code: " ++ toString code)) ∧
    nh.create_note note_text password ⟨code, body⟩
        = .error (.notehubError
            ("Server returned non-200 response code: " ++ toString code)) ∧
    nh.update_note note_id new_note_text password ⟨code, body⟩
        = .error (.notehubError
            ("Server returned non-200 response code: " ++ toString code)) ∧
    ∃ pre, "Server returned non-200 response code: " ++ toString code
      = pre ++ toString code := by
  refine ⟨?_, ?_, ?_, ⟨"Server returned non-200 response code: ", rfl⟩⟩ <;>
    simp [Notehub.get_note, Notehub.create_note, Notehub.update_note,
      Notehub.request, h]

/-- Claim C6 witness: a stubbed 500 response with an undecodable body makes
get_note raise NotehubError whose message contains 500. -/
theorem request_non200_raises_witness :
    (Notehub.mk "p" "k" "1.1").get_note "x" ⟨500, .error "garbage"⟩
        = .error (.notehubError
            ("Server returned non-200 response code: " ++ toString (500 : Nat))) ∧
    toString (500 : Nat) = "500" :=
  ⟨(request_non200_raises (Notehub.mk "p" "k" "1.1") "x" "y" "z" "w" 500
      (.error "garbage") (by decide)).1, rfl⟩

/-- Claim C7: the spec-modelled create_note with display options always puts
note, pid, signature and version in the POST body, and for each of theme,
text-font and header-font, whenever that option is supplied (non-empty) the
corresponding display-option field is included alongside them. -/
theorem create_note_display_options (nh : Notehub)
    (note_text password theme text_font header_font : String) :
    (("note", note_text)
        ∈ nh.create_note_data_opts note_text password theme text_font header_font ∧
      ("pid", nh.pid)
        ∈ nh.create_note_data_opts note_text password theme text_font header_font ∧
      ("signature", md5_hex (nh.pid ++ nh.psk ++ note_text))
        ∈ nh.create_note_data_opts note_text password theme text_font header_font ∧
      ("version", nh.version)
        ∈ nh.create_note_data_opts note_text password theme text_font header_font) ∧
    (theme ≠ "" → ("theme", theme)
        ∈ nh.create_note_data_opts note_text password theme text_font header_font) ∧
    (text_font ≠ "" → ("text-font", text_font)
        ∈ nh.create_note_data_opts note_text password theme text_font header_font) ∧
    (header_font ≠ "" → ("header-font", header_font)
        ∈ nh.create_note_data_opts note_text password theme text_font header_font) := by
  refine ⟨?_, fun h => ?_, fun h => ?_, fun h => ?_⟩
  · by_cases hp : password = "" <;>
      refine ⟨?_, ?_, ?_, ?_⟩ <;>
        simp [Notehub.create_note_data_opts, Notehub.create_note_data,
          Notehub.get_signature, hp]
  · simp [Notehub.create_note_data_opts, h]
  · simp [Notehub.create_note_data_opts, h]
  · simp [Notehub.create_note_data_opts, h]

/-- Claim C7 witness: a concrete call supplying the theme and fonts the
repository tests use carries all three display-option fields in its body. -/
theorem create_note_display_options_witness :
    ("theme", "solarized-light")
        ∈ (Notehub.mk "p" "k" "1.1").create_note_data_opts "n" ""
            "solarized-light" "Alegreya Sans SC" "Chau Philomene One" ∧
    ("text-font", "Alegreya Sans SC")
        ∈ (Notehub.mk "p" "k" "1.1").create_note_data_opts "n" ""
            "solarized-light" "Alegreya Sans SC" "Chau Philomene One" ∧
    ("header-font", "Chau Philomene One")
        ∈ (Notehub.mk "p" "k" "1.1").create_note_data_opts "n" ""
            "solarized-light" "Alegreya Sans SC" "Chau Philomene One" :=
  ⟨(create_note_display_options (Notehub.mk "p" "k" "1.1") "n" ""
      "solarized-light" "Alegreya Sans SC" "Chau Philomene One").2.1 (by decide),
   (create_note_display_options (Notehub.mk "p" "k" "1.1") "n" ""
      "solarized-light" "Alegreya Sans SC" "Chau Philomene One").2.2.1 (by decide),
   (create_note_display_options (Notehub.mk "p" "k" "1.1") "n" ""
      "solarized-light" "Alegreya Sans SC" "Chau Philomene One").2.2.2 (by decide)⟩
